import Mathlib

/-!
Verification of the retry/fallback relay in `server/index.js` and
`server/credentials.js` (legalpocket-backend).

The development shallowly embeds the JavaScript source:

* JSON / JavaScript values are modelled by `JSValue` (numbers as exact
  rationals; the source never exercises float rounding in the claims'
  scenarios, and the backoff arithmetic `delay *= 1.8` is modelled as
  multiplication by `9/5` over `ℚ`).
* The network is modelled by an oracle `Nat → FetchOutcome` giving, for each
  1-based attempt number, either a response (status + body) or a
  transport-level error (a rejected `fetch` promise).
* `fetchWithRetry` is translated from `server/index.js` lines 41-69; the
  dispatcher `app.post("/api/generate", ...)` from lines 84-165.  Each model
  name has its own attempt oracle (`Behavior`).
* Waits (`setTimeout`) are recorded in a trace rather than performed; the
  trace also counts `fetch` calls and service-account token exchanges so that
  "zero network calls" style properties are statable.
-/

/-- A JavaScript/JSON value, as needed by the relay: `undefined` is included
because property access on objects lacking the key yields it. Numbers are
exact rationals. -/
inductive JSValue where
  | null
  | undefined
  | bool (b : Bool)
  | num (q : ℚ)
  | str (s : String)
  | arr (elems : List JSValue)
  | obj (fields : List (String × JSValue))

/-- JavaScript truthiness test (`if (!x)`, `a || b`): `null`, `undefined`,
`false`, `0` and `""` are falsy; everything else the source can meet is
truthy. -/
def jsFalsy : JSValue → Bool
  | .null => true
  | .undefined => true
  | .bool b => !b
  | .num q => q == 0
  | .str s => s == ""
  | .arr _ => false
  | .obj _ => false

/-- Property access `v.k` / `v?.k` for a key `k`: objects look the key up,
anything else (primitives, arrays, `null`, `undefined` under `?.`) yields
`undefined`.  The source only ever applies this where the base is non-nullish
or guarded by optional chaining, so no throwing case is needed here. -/
def jsGetField : JSValue → String → JSValue
  | .obj fields, k => (fields.lookup k).getD .undefined
  | _, _ => .undefined

/-- Index access `v?.[i]`: arrays index positionally, objects via the decimal
string key, strings yield the single character; anything else `undefined`. -/
def jsIndex : JSValue → Nat → JSValue
  | .arr xs, i => (xs.get? i).getD .undefined
  | .obj fields, i => (fields.lookup (toString i)).getD .undefined
  | .str s, i => ((s.data.get? i).map fun c => JSValue.str c.toString).getD .undefined
  | _, _ => .undefined

/-- Nullish test: `null` and `undefined` are the values on which property
destructuring (`const {prompt} = req.body`) throws a `TypeError`. -/
def jsNullish : JSValue → Bool
  | .null => true
  | .undefined => true
  | _ => false

/-- String coercion applied by `Array.prototype.join` to each element.
Array/object coercion is approximated (the claims only exercise strings). -/
def jsToString : JSValue → String
  | .str s => s
  | .num q => toString q
  | .bool b => if b then "true" else "false"
  | .null => "null"
  | .undefined => "undefined"
  | .arr _ => ""
  | .obj _ => "[object Object]"

/-- An upstream HTTP response as the relay observes it: the status code, the
body as parsed JSON (`res.json()`; `none` models a body that is not valid
JSON, making `res.json()` reject), and the body as raw text (`res.text()`,
with its `.catch(() => "")` already folded in). -/
structure UpstreamResponse where
  status : Nat
  bodyJson : Option JSValue
  bodyText : String

/-- What one `fetch` call does: resolve with a response, or reject with a
transport-level error. -/
inductive FetchOutcome where
  | response (r : UpstreamResponse)
  | transportError

/-- Outcome of `fetchWithRetry`: a returned response, a propagated transport
error (`throw err` on the last attempt), or the `undefined` a zero-iteration
loop would fall through to. -/
inductive FetchResult where
  | response (r : UpstreamResponse)
  | thrown
  | undefinedResult

/-- Trace of one `fetchWithRetry` invocation: how many `fetch` calls were
issued, the backoff delays actually waited (in order, milliseconds as exact
rationals), and the result. -/
structure RetryTrace where
  calls : Nat
  delays : List ℚ
  result : FetchResult

/-- `[429, 500, 502, 503, 504].includes(res.status)` — the retryable set
(`server/index.js` line 49). -/
def retryableStatuses : List Nat := [429, 500, 502, 503, 504]

/-- The growth factor `1.8` of the backoff (`delay *= 1.8`). -/
def growthFactor : ℚ := 9 / 5

/-- The loop body of `fetchWithRetry` (`server/index.js` lines 44-68) for the
current `attempt` number with `rem` further attempts allowed after it
(`rem = retries - attempt`) and current `delay`.  `fuel = rem + 1` is the
number of loop iterations still permitted; `fuel = 0` is the fallen-through
loop returning `undefined`. -/
def fetchWithRetryGo (upstream : Nat → FetchOutcome) :
    Nat → Nat → ℚ → RetryTrace
  | _, 0, _ => { calls := 0, delays := [], result := .undefinedResult }
  | attempt, rem + 1, delay =>
    match upstream attempt with
    | .response r =>
      if r.status ∈ retryableStatuses then
        if rem = 0 then
          -- last attempt → return as-is
          { calls := 1, delays := [], result := .response r }
        else
          let t := fetchWithRetryGo upstream (attempt + 1) rem (delay * growthFactor)
          { calls := t.calls + 1, delays := delay :: t.delays, result := t.result }
      else
        -- success path: any non-retryable status returns immediately
        { calls := 1, delays := [], result := .response r }
    | .transportError =>
      if rem = 0 then
        { calls := 1, delays := [], result := .thrown }
      else
        let t := fetchWithRetryGo upstream (attempt + 1) rem (delay * growthFactor)
        { calls := t.calls + 1, delays := delay :: t.delays, result := t.result }

/-- `fetchWithRetry(url, options, retries)` (`server/index.js` lines 41-69):
attempt numbers run 1..retries, the delay starts at 600 ms. The url/options
are abstracted into the attempt oracle `upstream`. -/
def fetchWithRetry (upstream : Nat → FetchOutcome) (retries : Nat) : RetryTrace :=
  fetchWithRetryGo upstream 1 retries 600

/-- `PRIMARY_MODEL` (`server/index.js` line 72). -/
def PRIMARY_MODEL : String := "gemini-2.5-flash"

/-- `FALLBACK_MODEL` (`server/index.js` line 73). -/
def FALLBACK_MODEL : String := "gemini-2.5-mini"

/-- `modelEndpoint(modelName)` (`server/index.js` lines 76-78). -/
def modelEndpoint (modelName : String) : String :=
  "https://generativelanguage.googleapis.com/v1beta/models/" ++ modelName
    ++ ":generateContent"

/-- Environment configuration relevant to a dispatch: the optional
`GOOGLE_API_KEY` and the access-token string the service-account exchange
would yield when performed (the `accessToken.token || accessToken` extraction
of line 107 is folded into this plain string; exchange failure, which the
outer `try` would map to a 500, is outside the claims' scope). -/
structure Env where
  googleApiKey : Option String
  serviceToken : String

/-- Per-model attempt oracle: `behavior m i` is what the `i`-th `fetch` of
model `m`'s `fetchWithRetry` does. -/
def Behavior : Type := String → Nat → FetchOutcome

/-- The outward HTTP response of the `/api/generate` handler. -/
inductive HandlerResponse where
  | badRequest (error : String)                 -- 400 {error}
  | success (raw : JSValue) (text : JSValue)    -- 200 {raw, text}
  | upstream502 (status : Nat) (body : String)  -- 502 {error, status, body}
  | serverError                                 -- 500 {error, details} from catch
  | noResponse                                  -- loop fell through (no res sent)

/-- Trace of one dispatch of `POST /api/generate`: models the loop iterated
over, the URL and `Authorization` header used for each, how many
service-account token exchanges and upstream `fetch` calls happened, all
backoff delays waited in order, the outbound request bodies built, and the
outward response. -/
structure DispatchLog where
  modelsTried : List String
  urls : List String
  authHeaders : List (Option String)
  requestBodies : List JSValue
  tokenExchanges : Nat
  httpCalls : Nat
  delays : List ℚ
  response : HandlerResponse

/-- Lines 94-108 of `server/index.js`: the URL actually fetched for a model —
the endpoint, plus `?key=<GOOGLE_API_KEY>` in API-key mode. -/
def credUrl (env : Env) (m : String) : String :=
  match env.googleApiKey with
  | some k => modelEndpoint m ++ "?key=" ++ k
  | none => modelEndpoint m

/-- Lines 97-108: the `Authorization` header value — absent in API-key mode,
a fresh service-account bearer token otherwise. -/
def credAuth (env : Env) : Option String :=
  match env.googleApiKey with
  | some _ => none
  | none => some ("Bearer " ++ env.serviceToken)

/-- The outbound request body `{contents: [{parts: [{text: prompt}]}]}`
(`server/index.js` lines 110-116); `prompt` is embedded as-is. -/
def mkRequestBody (prompt : JSValue) : JSValue :=
  .obj [("contents", .arr [.obj [("parts", .arr [.obj [("text", prompt)]])]])]

/-- `res.ok`: status in the inclusive range 200..299. -/
def statusOk (status : Nat) : Bool := 200 ≤ status && status ≤ 299

/-- The lookup `json?.candidates?.[0]?.content?.parts`
(`server/index.js` line 153). -/
def rawPartsCandidates (json : JSValue) : JSValue :=
  jsGetField (jsGetField (jsIndex (jsGetField json "candidates") 0) "content")
    "parts"

/-- The lookup `json?.content?.[0]?.parts` (`server/index.js` line 154). -/
def rawPartsContent (json : JSValue) : JSValue :=
  jsGetField (jsIndex (jsGetField json "content") 0) "parts"

/-- `json?.candidates?.[0]?.content?.parts || json?.content?.[0]?.parts || []`
(`server/index.js` lines 152-155): first truthy lookup, else `[]`. -/
def resolveParts (json : JSValue) : JSValue :=
  let p1 := rawPartsCandidates json
  if jsFalsy p1 then
    let p2 := rawPartsContent json
    if jsFalsy p2 then .arr [] else p2
  else p1

/-- The mapped function `(p) => p.text || ""` of line 156: `none` models the
`TypeError` thrown by `p.text` when `p` is nullish (caught by line 157's
`catch`). -/
def partString : JSValue → Option String
  | .null => none
  | .undefined => none
  | p =>
    let t := jsGetField p "text"
    some (if jsFalsy t then "" else jsToString t)

/-- The array traversal of line 156: map `partString` over the parts,
propagating a thrown `TypeError` (`none`) from any element. -/
def partStrings : List JSValue → Option (List String)
  | [] => some []
  | p :: ps =>
    match partString p, partStrings ps with
    | some s, some ss => some (s :: ss)
    | _, _ => none

/-- Lines 150-157: `let extracted = null; try { ...; extracted =
parts.map((p) => p.text || "").join("\n"); } catch (e) {}`.  Calling `.map`
on a truthy non-array, or `p.text` on a nullish part, throws inside the
`try`, leaving `extracted` at its initial `null`. -/
def extractText (json : JSValue) : JSValue :=
  match resolveParts json with
  | .arr xs =>
    match partStrings xs with
    | some ts => .str (String.intercalate "\n" ts)
    | none => .null
  | _ => .null

/-- An empty dispatch log around a given outward response (no model iteration
was entered). -/
def emptyLog (response : HandlerResponse) : DispatchLog :=
  { modelsTried := [], urls := [], authHeaders := [], requestBodies := []
    tokenExchanges := 0, httpCalls := 0, delays := [], response := response }

/-- One completed model iteration that ended the handler with `response`. -/
def closeLog (m url : String) (auth : Option String) (exchanged : Bool)
    (body : JSValue) (t : RetryTrace) (response : HandlerResponse) :
    DispatchLog :=
  { modelsTried := [m], urls := [url], authHeaders := [auth]
    requestBodies := [body]
    tokenExchanges := if exchanged then 1 else 0
    httpCalls := t.calls
    delays := t.delays
    response := response }

/-- The `for (let modelName of modelsToTry)` loop (`server/index.js` lines
91-160), producing the dispatch trace.  Credentials are resolved inside the
loop (lines 97-108): an environment API key is appended to the URL and no
token exchange happens; otherwise a fresh service-account exchange yields the
bearer token for the `Authorization` header. -/
def runModelLoop (env : Env) (behavior : Behavior) (prompt : JSValue) :
    List String → DispatchLog
  | [] => emptyLog .noResponse
  | m :: rest =>
    let url := credUrl env m
    let auth := credAuth env
    let exchanged := env.googleApiKey.isNone
    let body := mkRequestBody prompt
    let t := fetchWithRetry (behavior m) 7
    match t.result with
    | .thrown =>
      -- the transport error propagates out of the loop to the outer catch
      closeLog m url auth exchanged body t .serverError
    | .undefinedResult =>
      -- `gresp.ok` on undefined throws a TypeError, caught by the outer catch
      closeLog m url auth exchanged body t .serverError
    | .response r =>
      if statusOk r.status then
        match r.bodyJson with
        | some json => closeLog m url auth exchanged body t
            (.success json (extractText json))
        | none =>
          -- `gresp.json()` rejects on a non-JSON body → outer catch → 500
          closeLog m url auth exchanged body t .serverError
      else if m = FALLBACK_MODEL then
        closeLog m url auth exchanged body t (.upstream502 r.status r.bodyText)
      else
        let restLog := runModelLoop env behavior prompt rest
        { modelsTried := m :: restLog.modelsTried
          urls := url :: restLog.urls
          authHeaders := auth :: restLog.authHeaders
          requestBodies := body :: restLog.requestBodies
          tokenExchanges := (if exchanged then 1 else 0) + restLog.tokenExchanges
          httpCalls := t.calls + restLog.httpCalls
          delays := t.delays ++ restLog.delays
          response := restLog.response }

/-- The `POST /api/generate` handler (`server/index.js` lines 84-165):
destructure `prompt` from the request body (a nullish body makes the
destructuring throw, caught as a 500), reject a falsy prompt with
400 `{error: "Missing prompt"}` before any network activity, then run the
model loop over `[PRIMARY_MODEL, FALLBACK_MODEL]`. -/
def generateHandler (env : Env) (behavior : Behavior) (reqBody : JSValue) :
    DispatchLog :=
  if jsNullish reqBody then emptyLog .serverError
  else
    let prompt := jsGetField reqBody "prompt"
    if jsFalsy prompt then emptyLog (.badRequest "Missing prompt")
    else runModelLoop env behavior prompt [PRIMARY_MODEL, FALLBACK_MODEL]

/-! ### Concrete fixtures used by witnesses and counterexamples -/

/-- Every attempt yields a retryable 503. -/
def const503 : Nat → FetchOutcome :=
  fun _ => .response ⟨503, some (.obj []), "overloaded"⟩

/-- Every attempt yields a non-retryable 404. -/
def const404 : Nat → FetchOutcome :=
  fun _ => .response ⟨404, some (.obj []), "not found"⟩

/-- Every attempt rejects at the transport level. -/
def constTransport : Nat → FetchOutcome := fun _ => .transportError

/-- Retryable 429s, then a transport error on the 7th attempt. -/
def lateTransport : Nat → FetchOutcome :=
  fun i => if i = 7 then .transportError
           else .response ⟨429, some (.obj []), "rate limited"⟩

/-- Transport errors on attempts 1-6, then a retryable 503 on the 7th. -/
def earlyTransport : Nat → FetchOutcome :=
  fun i => if i = 7 then .response ⟨503, some (.obj []), "overloaded"⟩
           else .transportError

/-- Both models always return 503. -/
def always503 : Behavior := fun _ _ => .response ⟨503, some (.obj []), "overloaded"⟩

/-- Primary model always errors at the transport level; fallback would
succeed if it were ever reached. -/
def primaryTransport : Behavior :=
  fun m _ =>
    if m = PRIMARY_MODEL then .transportError
    else .response ⟨200, some (.obj []), "{}"⟩

/-- Primary model 404s; fallback 500s on every attempt. -/
def primary404fallback500 : Behavior :=
  fun m _ =>
    if m = PRIMARY_MODEL then .response ⟨404, some (.obj []), "nf"⟩
    else .response ⟨500, some (.obj []), "ise"⟩

/-- An environment with an API key configured (and a service account that
would also be usable). -/
def envKey : Env := ⟨some "K", "TOK"⟩

/-- An environment with no API key, only the service account. -/
def envNoKey : Env := ⟨none, "TOK"⟩

/-- A request body with a non-empty prompt. -/
def promptBody : JSValue := .obj [("prompt", .str "hi")]

/-- A 2xx body in the `candidates[0].content.parts` shape with text "hello". -/
def helloBody : JSValue :=
  .obj [("candidates", .arr [.obj [("content", .obj [("parts",
    .arr [.obj [("text", .str "hello")]])])]])]

/-- A 2xx body in the alternate `content[0].parts` shape with text "world". -/
def worldBody : JSValue :=
  .obj [("content", .arr [.obj [("parts",
    .arr [.obj [("text", .str "world")]])]])]

/-- A malformed body: the shape lookup resolves to the truthy non-array `5`,
so `parts.map` throws inside the suppressed `try`. -/
def malformedPartsBody : JSValue :=
  .obj [("candidates", .arr [.obj [("content", .obj [("parts", .num 5)])]])]

/-- A part list built from optional text fields: `some s` is a part with a
string `text`, `none` a part lacking the field. -/
def mkPart : Option String → JSValue
  | some s => .obj [("text", .str s)]
  | none => .obj []

/-- A 2xx body whose parts are `[{text:"a"}, {}, {text:"b"}]`. -/
def multiPartBody : JSValue :=
  .obj [("candidates", .arr [.obj [("content", .obj [("parts",
    .arr [mkPart (some "a"), mkPart none, mkPart (some "b")])])]])]

/-- The delays waited across a whole dispatch in which both models 503 on
every attempt (both retry loops exhaust). -/
def resetDelays : List ℚ := (generateHandler envKey always503 promptBody).delays

/-! ### Helper lemmas about the retry loop -/

/-- Attempt `i`'s outcome makes the loop continue (or exhaust): either a
transport error or a response with retryable status. -/
def continuing (upstream : Nat → FetchOutcome) (i : Nat) : Prop :=
  upstream i = .transportError ∨
    ∃ r, upstream i = .response r ∧ r.status ∈ retryableStatuses

/-- What the loop does with the final attempt's outcome once every earlier
attempt continued: return the response (retryable or not), or throw. -/
def finalResult : FetchOutcome → FetchResult
  | .response r => .response r
  | .transportError => .thrown

theorem geom_cons (d : ℚ) (n : Nat) :
    d :: (List.range n).map (fun j => d * growthFactor * growthFactor ^ j) =
      (List.range (n + 1)).map (fun j => d * growthFactor ^ j) := by
  rw [List.range_succ_eq_map, List.map_cons, List.map_map]
  have hf : ((fun j => d * growthFactor ^ j) ∘ Nat.succ) =
      fun j => d * growthFactor * growthFactor ^ j := by
    funext j
    simp only [Function.comp_apply, pow_succ]
    ring
  rw [hf]
  norm_num

theorem fetchWithRetryGo_succ (upstream : Nat → FetchOutcome)
    (attempt rem : Nat) (delay : ℚ) :
    fetchWithRetryGo upstream attempt (rem + 1) delay =
      match upstream attempt with
      | .response r =>
        if r.status ∈ retryableStatuses then
          if rem = 0 then ⟨1, [], .response r⟩
          else
            let t := fetchWithRetryGo upstream (attempt + 1) rem
              (delay * growthFactor)
            ⟨t.calls + 1, delay :: t.delays, t.result⟩
        else ⟨1, [], .response r⟩
      | .transportError =>
        if rem = 0 then ⟨1, [], .thrown⟩
        else
          let t := fetchWithRetryGo upstream (attempt + 1) rem
            (delay * growthFactor)
          ⟨t.calls + 1, delay :: t.delays, t.result⟩ := rfl

theorem fetchWithRetryGo_continuing (upstream : Nat → FetchOutcome) :
    ∀ (rem a : Nat) (d : ℚ),
      (∀ i, a ≤ i → i < a + rem → continuing upstream i) →
      fetchWithRetryGo upstream a (rem + 1) d =
        { calls := rem + 1
          delays := (List.range rem).map fun j => d * growthFactor ^ j
          result := finalResult (upstream (a + rem)) } := by
  intro rem
  induction rem with
  | zero =>
    intro a d _
    rw [fetchWithRetryGo_succ]
    simp only [Nat.add_zero, List.range_zero, List.map_nil]
    cases hu : upstream a with
    | response r =>
      by_cases hr : r.status ∈ retryableStatuses
      · simp [hr, finalResult]
      · simp [hr, finalResult]
    | transportError => simp [finalResult]
  | succ rem ih =>
    intro a d h
    have hcont : continuing upstream a := h a le_rfl (by omega)
    have hrest : ∀ i, a + 1 ≤ i → i < a + 1 + rem → continuing upstream i := by
      intro i h1 h2
      exact h i (by omega) (by omega)
    have hrec := ih (a + 1) (d * growthFactor) hrest
    have hidx : a + 1 + rem = a + (rem + 1) := by omega
    rw [hidx] at hrec
    rw [fetchWithRetryGo_succ]
    rcases hcont with hte | ⟨r, hres, hr⟩
    · rw [hte]
      dsimp only
      rw [if_neg (Nat.succ_ne_zero rem), hrec]
      simp only [RetryTrace.mk.injEq]
      exact ⟨trivial, geom_cons d rem, trivial⟩
    · rw [hres]
      dsimp only
      rw [if_pos hr, if_neg (Nat.succ_ne_zero rem), hrec]
      simp only [RetryTrace.mk.injEq]
      exact ⟨trivial, geom_cons d rem, trivial⟩

theorem fetchWithRetryGo_stop (upstream : Nat → FetchOutcome) (a rem : Nat)
    (d : ℚ) (r : UpstreamResponse) (hres : upstream a = .response r)
    (hr : r.status ∉ retryableStatuses) :
    fetchWithRetryGo upstream a (rem + 1) d = ⟨1, [], .response r⟩ := by
  rw [fetchWithRetryGo_succ, hres]
  dsimp only
  rw [if_neg hr]

theorem fetchWithRetryGo_thrown (upstream : Nat → FetchOutcome) :
    ∀ (rem a : Nat) (d : ℚ),
      (fetchWithRetryGo upstream a (rem + 1) d).result = .thrown →
      (∀ i, a ≤ i → i < a + rem → continuing upstream i) ∧
        upstream (a + rem) = .transportError := by
  intro rem
  induction rem with
  | zero =>
    intro a d h
    rw [fetchWithRetryGo_succ] at h
    refine ⟨fun i h1 h2 => absurd h2 (by omega), ?_⟩
    rw [Nat.add_zero]
    cases hu : upstream a with
    | response r =>
      rw [hu] at h
      dsimp only at h
      by_cases hr : r.status ∈ retryableStatuses
      · rw [if_pos hr, if_pos rfl] at h
        exact absurd h (by simp)
      · rw [if_neg hr] at h
        exact absurd h (by simp)
    | transportError => rfl
  | succ rem ih =>
    intro a d h
    rw [fetchWithRetryGo_succ] at h
    cases hu : upstream a with
    | response r =>
      rw [hu] at h
      dsimp only at h
      by_cases hr : r.status ∈ retryableStatuses
      · rw [if_pos hr, if_neg (Nat.succ_ne_zero rem)] at h
        dsimp only at h
        have hrest := ih (a + 1) (d * growthFactor) h
        constructor
        · intro i h1 h2
          rcases eq_or_lt_of_le h1 with heq | hlt
          · exact Or.inr ⟨r, heq ▸ hu, hr⟩
          · exact hrest.1 i (by omega) (by omega)
        · rw [show a + (rem + 1) = a + 1 + rem by omega]
          exact hrest.2
      · rw [if_neg hr] at h
        exact absurd h (by simp)
    | transportError =>
      rw [hu] at h
      dsimp only at h
      rw [if_neg (Nat.succ_ne_zero rem)] at h
      dsimp only at h
      have hrest := ih (a + 1) (d * growthFactor) h
      constructor
      · intro i h1 h2
        rcases eq_or_lt_of_le h1 with heq | hlt
        · exact Or.inl (heq ▸ hu)
        · exact hrest.1 i (by omega) (by omega)
      · rw [show a + (rem + 1) = a + 1 + rem by omega]
        exact hrest.2

theorem fetchWithRetry_spec (upstream : Nat → FetchOutcome) (retries : Nat)
    (hpos : 1 ≤ retries)
    (h : ∀ i, 1 ≤ i → i < retries → continuing upstream i) :
    fetchWithRetry upstream retries =
      { calls := retries
        delays := (List.range (retries - 1)).map fun j => 600 * growthFactor ^ j
        result := finalResult (upstream retries) } := by
  obtain ⟨rem, rfl⟩ : ∃ rem, retries = rem + 1 := ⟨retries - 1, by omega⟩
  unfold fetchWithRetry
  rw [fetchWithRetryGo_continuing upstream rem 1 600
    (fun i h1 h2 => h i h1 (by omega))]
  rw [show 1 + rem = rem + 1 by omega]
  simp

theorem fetchWithRetry_thrown_iff (upstream : Nat → FetchOutcome)
    (retries : Nat) (hpos : 1 ≤ retries) :
    (fetchWithRetry upstream retries).result = .thrown ↔
      ((∀ i, 1 ≤ i → i < retries → continuing upstream i) ∧
        upstream retries = .transportError) := by
  constructor
  · intro h
    obtain ⟨rem, rfl⟩ : ∃ rem, retries = rem + 1 := ⟨retries - 1, by omega⟩
    have hrest := fetchWithRetryGo_thrown upstream rem 1 600 h
    exact ⟨fun i h1 h2 => hrest.1 i h1 (by omega),
      by rw [show rem + 1 = 1 + rem by omega]; exact hrest.2⟩
  · intro ⟨hc, hte⟩
    rw [fetchWithRetry_spec upstream retries hpos hc, hte]
    rfl

/-! ### Claims about the bounded-retry send -/

/-- C1: when every attempt's response has a retryable status
(429/500/502/503/504), `fetchWithRetry` issues exactly `retries` HTTP calls
and the recorded delays follow the geometric schedule 600·1.8^i (one delay
per retry, none after the final attempt); when the first response has a
non-retryable status (2xx, 404, ...), exactly one HTTP call is issued and
that response is returned immediately. -/
theorem claim_C1 (upstream : Nat → FetchOutcome) (retries : Nat)
    (hpos : 1 ≤ retries) :
    ((∀ i, 1 ≤ i → i ≤ retries →
        ∃ r, upstream i = .response r ∧ r.status ∈ retryableStatuses) →
      (fetchWithRetry upstream retries).calls = retries ∧
      (fetchWithRetry upstream retries).delays =
        (List.range (retries - 1)).map fun j => 600 * growthFactor ^ j) ∧
    (∀ r, upstream 1 = .response r → r.status ∉ retryableStatuses →
      (fetchWithRetry upstream retries).calls = 1 ∧
      (fetchWithRetry upstream retries).result = .response r) := by
  constructor
  · intro h
    rw [fetchWithRetry_spec upstream retries hpos
      (fun i h1 h2 => Or.inr (h i h1 (by omega)))]
    exact ⟨rfl, rfl⟩
  · intro r hres hr
    obtain ⟨rem, rfl⟩ : ∃ rem, retries = rem + 1 := ⟨retries - 1, by omega⟩
    unfold fetchWithRetry
    rw [fetchWithRetryGo_stop upstream 1 rem 600 r hres hr]
    exact ⟨rfl, rfl⟩

/-- Witness for C1 at concrete oracles: constant 503 gives 7 calls with the
six-step geometric delay schedule; constant 404 gives one call returning the
404 response. -/
theorem claim_C1_witness :
    ((fetchWithRetry const503 7).calls = 7 ∧
      (fetchWithRetry const503 7).delays =
        (List.range 6).map fun j => 600 * growthFactor ^ j) ∧
    ((fetchWithRetry const404 7).calls = 1 ∧
      (fetchWithRetry const404 7).result =
        .response ⟨404, some (.obj []), "not found"⟩) := by
  constructor
  · exact (claim_C1 const503 7 (by norm_num)).1
      (fun i _ _ => ⟨⟨503, some (.obj []), "overloaded"⟩, rfl, by decide⟩)
  · exact (claim_C1 const404 7 (by norm_num)).2
      ⟨404, some (.obj []), "not found"⟩ rfl (by decide)

/-- C4: `fetchWithRetry` throws exactly when every attempt before the last
kept the loop going (transport error or retryable status) and the transport
itself errors on the final attempt; transport errors on non-final attempts
are swallowed and retried, and when the attempts exhaust on a retryable
status the last response is returned as-is. -/
theorem claim_C4 (upstream : Nat → FetchOutcome) (retries : Nat)
    (hpos : 1 ≤ retries) :
    ((fetchWithRetry upstream retries).result = .thrown ↔
      ((∀ i, 1 ≤ i → i < retries → continuing upstream i) ∧
        upstream retries = .transportError)) ∧
    (∀ r, (∀ i, 1 ≤ i → i < retries → continuing upstream i) →
      upstream retries = .response r → r.status ∈ retryableStatuses →
      (fetchWithRetry upstream retries).result = .response r) := by
  refine ⟨fetchWithRetry_thrown_iff upstream retries hpos, ?_⟩
  intro r hc hres _
  rw [fetchWithRetry_spec upstream retries hpos hc, hres]
  rfl

/-- Witness for C4: a transport error on the 7th attempt after six retryable
429s throws; transport errors on attempts 1-6 followed by a 503 on the 7th
are swallowed and the 503 response is returned as-is. -/
theorem claim_C4_witness :
    (fetchWithRetry lateTransport 7).result = .thrown ∧
    (fetchWithRetry earlyTransport 7).result =
      .response ⟨503, some (.obj []), "overloaded"⟩ := by
  constructor
  · exact (claim_C4 lateTransport 7 (by norm_num)).1.2
      ⟨fun i h1 h2 => Or.inr ⟨⟨429, some (.obj []), "rate limited"⟩, by
          simp only [lateTransport]
          rw [if_neg (by omega : ¬ i = 7)], by decide⟩, rfl⟩
  · exact (claim_C4 earlyTransport 7 (by norm_num)).2 _
      (fun i h1 h2 => Or.inl (by
        simp only [earlyTransport]
        rw [if_neg (by omega : ¬ i = 7)]))
      rfl (by decide)

/-! ### Helper lemmas about the model-fallback loop -/

theorem runModelLoop_thrown (env : Env) (behavior : Behavior)
    (prompt : JSValue) (m : String) (rest : List String)
    (ht : (fetchWithRetry (behavior m) 7).result = .thrown) :
    (runModelLoop env behavior prompt (m :: rest)).response = .serverError ∧
    (runModelLoop env behavior prompt (m :: rest)).modelsTried = [m] ∧
    (runModelLoop env behavior prompt (m :: rest)).httpCalls =
      (fetchWithRetry (behavior m) 7).calls := by
  simp only [runModelLoop]
  rw [ht]
  simp [closeLog]

theorem runModelLoop_continue (env : Env) (behavior : Behavior)
    (prompt : JSValue) (m : String) (rest : List String)
    (r : UpstreamResponse)
    (hr : (fetchWithRetry (behavior m) 7).result = .response r)
    (hok : statusOk r.status = false) (hm : m ≠ FALLBACK_MODEL) :
    (runModelLoop env behavior prompt (m :: rest)).response =
      (runModelLoop env behavior prompt rest).response ∧
    (runModelLoop env behavior prompt (m :: rest)).modelsTried =
      m :: (runModelLoop env behavior prompt rest).modelsTried ∧
    (runModelLoop env behavior prompt (m :: rest)).delays =
      (fetchWithRetry (behavior m) 7).delays ++
        (runModelLoop env behavior prompt rest).delays := by
  simp only [runModelLoop]
  rw [hr]
  simp [hok, hm]

theorem runModelLoop_last_fail (env : Env) (behavior : Behavior)
    (prompt : JSValue) (rest : List String) (r : UpstreamResponse)
    (hr : (fetchWithRetry (behavior FALLBACK_MODEL) 7).result = .response r)
    (hok : statusOk r.status = false) :
    (runModelLoop env behavior prompt (FALLBACK_MODEL :: rest)).response =
      .upstream502 r.status r.bodyText ∧
    (runModelLoop env behavior prompt (FALLBACK_MODEL :: rest)).modelsTried =
      [FALLBACK_MODEL] := by
  simp only [runModelLoop]
  rw [hr]
  simp [hok, closeLog]

theorem runModelLoop_single_modelsTried (env : Env) (behavior : Behavior)
    (prompt : JSValue) (m : String) :
    (runModelLoop env behavior prompt [m]).modelsTried = [m] := by
  simp only [runModelLoop]
  cases ht : (fetchWithRetry (behavior m) 7).result with
  | thrown => simp [closeLog]
  | undefinedResult => simp [closeLog]
  | response r =>
    by_cases hok : statusOk r.status
    · cases hj : r.bodyJson <;> simp [hok, hj, closeLog]
    · by_cases hm : m = FALLBACK_MODEL
      · simp [hok, hm, closeLog]
      · simp [hok, hm, closeLog, runModelLoop, emptyLog]

theorem runModelLoop_iter (env : Env) (behavior : Behavior)
    (prompt : JSValue) :
    ∀ ms : List String, ∃ tried : List String,
      (runModelLoop env behavior prompt ms).modelsTried = tried ∧
      (runModelLoop env behavior prompt ms).urls =
        tried.map (credUrl env) ∧
      (runModelLoop env behavior prompt ms).authHeaders =
        tried.map (fun _ => credAuth env) ∧
      (runModelLoop env behavior prompt ms).requestBodies =
        tried.map (fun _ => mkRequestBody prompt) ∧
      (runModelLoop env behavior prompt ms).tokenExchanges =
        (if env.googleApiKey.isNone then tried.length else 0) ∧
      (runModelLoop env behavior prompt ms).delays =
        (tried.map fun m => (fetchWithRetry (behavior m) 7).delays).flatten ∧
      (ms ≠ [] → tried ≠ []) := by
  intro ms
  induction ms with
  | nil =>
    refine ⟨[], ?_⟩
    simp [runModelLoop, emptyLog]
  | cons m rest ih =>
    simp only [runModelLoop]
    cases ht : (fetchWithRetry (behavior m) 7).result with
    | thrown =>
      refine ⟨[m], ?_⟩
      cases hk : env.googleApiKey <;> simp [closeLog, hk]
    | undefinedResult =>
      refine ⟨[m], ?_⟩
      cases hk : env.googleApiKey <;> simp [closeLog, hk]
    | response r =>
      by_cases hok : statusOk r.status
      · cases hj : r.bodyJson with
        | some json =>
          refine ⟨[m], ?_⟩
          cases hk : env.googleApiKey <;> simp [closeLog, hok, hj, hk]
        | none =>
          refine ⟨[m], ?_⟩
          cases hk : env.googleApiKey <;> simp [closeLog, hok, hj, hk]
      · by_cases hm : m = FALLBACK_MODEL
        · refine ⟨[m], ?_⟩
          cases hk : env.googleApiKey <;> simp [closeLog, hok, hm, hk]
        · obtain ⟨tried, h1, h2, h3, h4, h5, h6, _⟩ := ih
          refine ⟨m :: tried, ?_⟩
          cases hk : env.googleApiKey <;>
            simp [hok, hm, hk, h1, h2, h3, h4, h6] <;>
            simp [hk] at h5 <;> omega

theorem generateHandler_run (env : Env) (behavior : Behavior)
    (reqBody : JSValue) (hb : jsNullish reqBody = false)
    (hp : jsFalsy (jsGetField reqBody "prompt") = false) :
    generateHandler env behavior reqBody =
      runModelLoop env behavior (jsGetField reqBody "prompt")
        [PRIMARY_MODEL, FALLBACK_MODEL] := by
  simp [generateHandler, hb, hp]

theorem generateHandler_badRequest (env : Env) (behavior : Behavior)
    (reqBody : JSValue) (hb : jsNullish reqBody = false)
    (hp : jsFalsy (jsGetField reqBody "prompt") = true) :
    generateHandler env behavior reqBody =
      emptyLog (.badRequest "Missing prompt") := by
  simp [generateHandler, hb, hp]

/-! ### Claims about the dispatcher -/

/-- C2: if a transport-level error survives the primary model's whole retry
loop (its bounded-retry send throws), the dispatch ends with the outer
catch's 500 response and the fallback model is never attempted (only the
primary appears in the iteration trace); by contrast, a non-2xx HTTP-status
outcome of the primary's send falls through to the fallback. -/
theorem claim_C2 (env : Env) (behavior : Behavior) (reqBody : JSValue)
    (hb : jsNullish reqBody = false)
    (hp : jsFalsy (jsGetField reqBody "prompt") = false) :
    ((fetchWithRetry (behavior PRIMARY_MODEL) 7).result = .thrown →
      (generateHandler env behavior reqBody).response = .serverError ∧
      (generateHandler env behavior reqBody).modelsTried = [PRIMARY_MODEL]) ∧
    (∀ r, (fetchWithRetry (behavior PRIMARY_MODEL) 7).result = .response r →
      statusOk r.status = false →
      (generateHandler env behavior reqBody).modelsTried =
        [PRIMARY_MODEL, FALLBACK_MODEL]) := by
  rw [generateHandler_run env behavior reqBody hb hp]
  constructor
  · intro ht
    have hc := runModelLoop_thrown env behavior
      (jsGetField reqBody "prompt") PRIMARY_MODEL [FALLBACK_MODEL] ht
    exact ⟨hc.1, hc.2.1⟩
  · intro r hr hok
    have hc := runModelLoop_continue env behavior
      (jsGetField reqBody "prompt") PRIMARY_MODEL [FALLBACK_MODEL] r hr hok
      (by decide)
    rw [hc.2.1, runModelLoop_single_modelsTried]

/-- Witness for C2: with the primary always transport-erroring, the dispatch
500s with only the primary tried; with the primary 404ing, both models are
tried. -/
theorem claim_C2_witness :
    ((generateHandler envKey primaryTransport promptBody).response =
        .serverError ∧
      (generateHandler envKey primaryTransport promptBody).modelsTried =
        [PRIMARY_MODEL]) ∧
    (generateHandler envKey primary404fallback500 promptBody).modelsTried =
      [PRIMARY_MODEL, FALLBACK_MODEL] := by
  constructor
  · exact (claim_C2 envKey primaryTransport promptBody rfl rfl).1 rfl
  · exact (claim_C2 envKey primary404fallback500 promptBody rfl rfl).2
      ⟨404, some (.obj []), "nf"⟩
      (by
        have : ∀ i, primary404fallback500 PRIMARY_MODEL i =
            .response ⟨404, some (.obj []), "nf"⟩ := by
          intro i
          simp [primary404fallback500, PRIMARY_MODEL]
        unfold fetchWithRetry
        rw [fetchWithRetryGo_stop (primary404fallback500 PRIMARY_MODEL) 1 6 600
          ⟨404, some (.obj []), "nf"⟩ (this 1) (by decide)])
      rfl

/-- C3: when the primary model's send ends in a non-2xx response and the
fallback's send also ends in a non-2xx response, the dispatcher tries both
models in order and answers with the 502 upstream-error response carrying
the status and body text of the fallback's last response. -/
theorem claim_C3 (env : Env) (behavior : Behavior) (reqBody : JSValue)
    (hb : jsNullish reqBody = false)
    (hp : jsFalsy (jsGetField reqBody "prompt") = false)
    (r1 r2 : UpstreamResponse)
    (h1 : (fetchWithRetry (behavior PRIMARY_MODEL) 7).result = .response r1)
    (h1s : statusOk r1.status = false)
    (h2 : (fetchWithRetry (behavior FALLBACK_MODEL) 7).result = .response r2)
    (h2s : statusOk r2.status = false) :
    (generateHandler env behavior reqBody).modelsTried =
      [PRIMARY_MODEL, FALLBACK_MODEL] ∧
    (generateHandler env behavior reqBody).response =
      .upstream502 r2.status r2.bodyText := by
  rw [generateHandler_run env behavior reqBody hb hp]
  have hc := runModelLoop_continue env behavior
    (jsGetField reqBody "prompt") PRIMARY_MODEL [FALLBACK_MODEL] r1 h1 h1s
    (by decide)
  have hl := runModelLoop_last_fail env behavior
    (jsGetField reqBody "prompt") [] r2 h2 h2s
  exact ⟨by rw [hc.2.1, hl.2], by rw [hc.1, hl.1]⟩

/-- Witness for C3: primary 404s, fallback 500s — both models are tried and
the 502 reports the fallback's 500 status and its body text "ise". -/
theorem claim_C3_witness :
    (generateHandler envKey primary404fallback500 promptBody).modelsTried =
      [PRIMARY_MODEL, FALLBACK_MODEL] ∧
    (generateHandler envKey primary404fallback500 promptBody).response =
      .upstream502 500 "ise" := by
  have h1 : (fetchWithRetry (primary404fallback500 PRIMARY_MODEL) 7).result =
      .response ⟨404, some (.obj []), "nf"⟩ := by
    unfold fetchWithRetry
    rw [fetchWithRetryGo_stop (primary404fallback500 PRIMARY_MODEL) 1 6 600
      ⟨404, some (.obj []), "nf"⟩ (by simp [primary404fallback500, PRIMARY_MODEL])
      (by decide)]
  have h2 : (fetchWithRetry (primary404fallback500 FALLBACK_MODEL) 7).result =
      .response ⟨500, some (.obj []), "ise"⟩ := by
    have hall : ∀ i, 1 ≤ i → i < 7 →
        continuing (primary404fallback500 FALLBACK_MODEL) i := by
      intro i _ _
      exact Or.inr ⟨⟨500, some (.obj []), "ise"⟩,
        by simp [primary404fallback500, PRIMARY_MODEL, FALLBACK_MODEL], by decide⟩
    rw [fetchWithRetry_spec (primary404fallback500 FALLBACK_MODEL) 7
      (by norm_num) hall]
    simp [primary404fallback500, PRIMARY_MODEL, FALLBACK_MODEL, finalResult]
  exact claim_C3 envKey primary404fallback500 promptBody rfl rfl
    ⟨404, some (.obj []), "nf"⟩ ⟨500, some (.obj []), "ise"⟩
    h1 (by decide) h2 (by decide)

/-- C5: a request whose `prompt` field is the empty string or absent is
rejected with the 400 "Missing prompt" response before any network
activity: no upstream HTTP call and no service-account token exchange
happens. -/
theorem claim_C5 (env : Env) (behavior : Behavior) (reqBody : JSValue)
    (hb : jsNullish reqBody = false)
    (h : jsGetField reqBody "prompt" = .str "" ∨
      jsGetField reqBody "prompt" = .undefined) :
    (generateHandler env behavior reqBody).response =
      .badRequest "Missing prompt" ∧
    (generateHandler env behavior reqBody).httpCalls = 0 ∧
    (generateHandler env behavior reqBody).tokenExchanges = 0 := by
  have hp : jsFalsy (jsGetField reqBody "prompt") = true := by
    rcases h with h | h <;> rw [h] <;> rfl
  rw [generateHandler_badRequest env behavior reqBody hb hp]
  exact ⟨rfl, rfl, rfl⟩

/-- Witness for C5: a request body with no `prompt` field is rejected with
zero fetches and zero token exchanges, in an environment with no API key
(so a token exchange would have been needed for any send). -/
theorem claim_C5_witness :
    (generateHandler envNoKey always503 (.obj [("other", .num 1)])).response =
      .badRequest "Missing prompt" ∧
    (generateHandler envNoKey always503 (.obj [("other", .num 1)])).httpCalls
      = 0 ∧
    (generateHandler envNoKey always503
      (.obj [("other", .num 1)])).tokenExchanges = 0 :=
  claim_C5 envNoKey always503 (.obj [("other", .num 1)]) rfl (Or.inr rfl)

/-! ### Helper lemmas about extraction -/

theorem partString_mkPart (t : Option String) :
    partString (mkPart t) = some (t.getD "") := by
  cases t with
  | none => rfl
  | some s =>
    show some (if s == "" then "" else s) = some s
    rcases eq_or_ne s "" with rfl | hs
    · rfl
    · rw [if_neg (by simpa using hs)]

theorem partStrings_mkPart (ts : List (Option String)) :
    partStrings (ts.map mkPart) = some (ts.map fun t => t.getD "") := by
  induction ts with
  | nil => rfl
  | cons t rest ih =>
    simp [partStrings, partString_mkPart, ih]

/-- C6 (corrected claim as amended): the `candidates[0].content.parts` shape
with text "hello" extracts `"hello"`, the alternate `content[0].parts` shape
with text "world" extracts `"world"`, and any body for which neither shape
lookup yields a truthy value extracts the empty string without raising. (As
the counterexample shows, a truthy non-array `parts` value instead leaves
the suppressed-error extraction at `null`.) -/
theorem claim_C6_amended :
    extractText helloBody = .str "hello" ∧
    extractText worldBody = .str "world" ∧
    (∀ json, jsFalsy (rawPartsCandidates json) = true →
      jsFalsy (rawPartsContent json) = true →
      extractText json = .str "") := by
  refine ⟨rfl, rfl, ?_⟩
  intro json h1 h2
  simp only [extractText, resolveParts, h1, h2]
  rfl

/-- Counterexample to C6 as stated: a body whose `candidates[0].content.parts`
is the malformed (truthy, non-array) value `5` yields extracted value `null`,
not the empty string. -/
theorem claim_C6_counterexample :
    extractText malformedPartsBody = JSValue.null ∧
    JSValue.null ≠ JSValue.str "" :=
  ⟨rfl, fun h => JSValue.noConfusion h⟩

/-- Witness for C6 (amended): the empty object exhibits neither shape and
extracts the empty string. -/
theorem claim_C6_witness :
    extractText (JSValue.obj []) = .str "" :=
  claim_C6_amended.2.2 (JSValue.obj []) rfl rfl

/-- C9: when the resolved parts value is an array of part objects (each with
a string `text` field or lacking the field), the extracted text is the
parts' text fields joined by a single newline, a part without a `text` field
(or with an empty one) contributing the empty string. -/
theorem claim_C9 (json : JSValue) (ts : List (Option String))
    (h : resolveParts json = .arr (ts.map mkPart)) :
    extractText json =
      .str (String.intercalate "\n" (ts.map fun t => t.getD "")) := by
  simp only [extractText, h, partStrings_mkPart]

/-- Witness for C9: parts `[{text:"a"}, {}, {text:"b"}]` extract
`"a\n\nb"`. -/
theorem claim_C9_witness :
    extractText multiPartBody = .str ("a" ++ "\n" ++ "\n" ++ "b") :=
  claim_C9 multiPartBody [some "a", none, some "b"] rfl

/-- C7: when an API key is configured, every model iteration appends the key
to the request URL and performs no service-account token exchange; with no
API key, a token exchange happens freshly for every model iteration and its
bearer token is set as the `Authorization` header. -/
theorem claim_C7 (env : Env) (behavior : Behavior) (reqBody : JSValue)
    (hb : jsNullish reqBody = false)
    (hp : jsFalsy (jsGetField reqBody "prompt") = false) :
    (∀ k, env.googleApiKey = some k →
      (generateHandler env behavior reqBody).tokenExchanges = 0 ∧
      ∀ u ∈ (generateHandler env behavior reqBody).urls,
        ∃ m, u = modelEndpoint m ++ "?key=" ++ k) ∧
    (env.googleApiKey = none →
      (generateHandler env behavior reqBody).tokenExchanges =
        (generateHandler env behavior reqBody).modelsTried.length ∧
      ∀ a ∈ (generateHandler env behavior reqBody).authHeaders,
        a = some ("Bearer " ++ env.serviceToken)) := by
  rw [generateHandler_run env behavior reqBody hb hp]
  obtain ⟨tried, h1, h2, h3, _, h5, _, _⟩ :=
    runModelLoop_iter env behavior (jsGetField reqBody "prompt")
      [PRIMARY_MODEL, FALLBACK_MODEL]
  constructor
  · intro k hk
    constructor
    · rw [h5]
      simp [hk]
    · intro u hu
      rw [h2] at hu
      obtain ⟨m, _, heq⟩ := List.mem_map.mp hu
      refine ⟨m, ?_⟩
      rw [← heq]
      simp [credUrl, hk]
  · intro hk
    constructor
    · rw [h5, h1]
      simp [hk]
    · intro a ha
      rw [h3] at ha
      obtain ⟨m, _, heq⟩ := List.mem_map.mp ha
      rw [← heq]
      simp [credAuth, hk]

/-- Witness for C7: with the key "K" configured both iterations use
key-suffixed URLs and no exchange; with no key, one fresh exchange per
iteration and a bearer header from the service token "TOK". -/
theorem claim_C7_witness :
    ((generateHandler envKey always503 promptBody).tokenExchanges = 0 ∧
      ∀ u ∈ (generateHandler envKey always503 promptBody).urls,
        ∃ m, u = modelEndpoint m ++ "?key=" ++ "K") ∧
    ((generateHandler envNoKey always503 promptBody).tokenExchanges =
        (generateHandler envNoKey always503 promptBody).modelsTried.length ∧
      ∀ a ∈ (generateHandler envNoKey always503 promptBody).authHeaders,
        a = some ("Bearer " ++ "TOK")) :=
  ⟨(claim_C7 envKey always503 promptBody rfl rfl).1 "K" rfl,
    (claim_C7 envNoKey always503 promptBody rfl rfl).2 rfl⟩

/-- C10: prompt validation rejects exactly the JavaScript-falsy prompts
(absent field, `null`, `false`, `0`, `""`) with the 400 "Missing prompt"
response and builds no outbound request; every truthy prompt — whatever its
type — passes validation and is embedded as-is as the `text` field of every
outbound request body built during the dispatch. -/
theorem claim_C10 (env : Env) (behavior : Behavior) (reqBody : JSValue)
    (hb : jsNullish reqBody = false) :
    (jsFalsy (jsGetField reqBody "prompt") = true →
      (generateHandler env behavior reqBody).response =
        .badRequest "Missing prompt" ∧
      (generateHandler env behavior reqBody).requestBodies = []) ∧
    (jsFalsy (jsGetField reqBody "prompt") = false →
      (generateHandler env behavior reqBody).requestBodies ≠ [] ∧
      ∀ b ∈ (generateHandler env behavior reqBody).requestBodies,
        b = .obj [("contents", .arr [.obj [("parts",
          .arr [.obj [("text", jsGetField reqBody "prompt")]])]])]) := by
  constructor
  · intro hp
    rw [generateHandler_badRequest env behavior reqBody hb hp]
    exact ⟨rfl, rfl⟩
  · intro hp
    rw [generateHandler_run env behavior reqBody hb hp]
    obtain ⟨tried, _, _, _, h4, _, _, h7⟩ :=
      runModelLoop_iter env behavior (jsGetField reqBody "prompt")
        [PRIMARY_MODEL, FALLBACK_MODEL]
    have hne : tried ≠ [] := h7 (by simp)
    constructor
    · rw [h4]
      simpa using hne
    · intro b hbmem
      rw [h4] at hbmem
      obtain ⟨m, _, heq⟩ := List.mem_map.mp hbmem
      rw [← heq]
      rfl

/-- Witness for C10: the falsy prompt `0` is rejected with no request body
built; the truthy non-string prompt `5` passes and is embedded as-is. -/
theorem claim_C10_witness :
    ((generateHandler envKey always503 (.obj [("prompt", .num 0)])).response =
        .badRequest "Missing prompt" ∧
      (generateHandler envKey always503
        (.obj [("prompt", .num 0)])).requestBodies = []) ∧
    ((generateHandler envKey always503
        (.obj [("prompt", .num 5)])).requestBodies ≠ [] ∧
      ∀ b ∈ (generateHandler envKey always503
          (.obj [("prompt", .num 5)])).requestBodies,
        b = .obj [("contents", .arr [.obj [("parts",
          .arr [.obj [("text", jsGetField (.obj [("prompt", .num 5)])
            "prompt")]])]])]) :=
  ⟨(claim_C10 envKey always503 (.obj [("prompt", .num 0)]) rfl).1 rfl,
    (claim_C10 envKey always503 (.obj [("prompt", .num 5)]) rfl).2 rfl⟩

/-! ### Backoff schedule invariants (C8) -/

theorem fetchWithRetryGo_delays_geom (upstream : Nat → FetchOutcome) :
    ∀ (fuel a : Nat) (d : ℚ), ∃ n,
      (fetchWithRetryGo upstream a fuel d).delays =
        (List.range n).map fun j => d * growthFactor ^ j := by
  intro fuel
  induction fuel with
  | zero =>
    intro a d
    exact ⟨0, rfl⟩
  | succ rem ih =>
    intro a d
    rw [fetchWithRetryGo_succ]
    cases hu : upstream a with
    | response r =>
      by_cases hr : r.status ∈ retryableStatuses
      · by_cases h0 : rem = 0
        · exact ⟨0, by simp [hr, h0]⟩
        · obtain ⟨n, hn⟩ := ih (a + 1) (d * growthFactor)
          refine ⟨n + 1, ?_⟩
          dsimp only
          rw [if_pos hr, if_neg h0]
          dsimp only
          rw [hn]
          exact geom_cons d n
      · exact ⟨0, by simp [hr]⟩
    | transportError =>
      by_cases h0 : rem = 0
      · exact ⟨0, by simp [h0]⟩
      · obtain ⟨n, hn⟩ := ih (a + 1) (d * growthFactor)
        refine ⟨n + 1, ?_⟩
        dsimp only
        rw [if_neg h0]
        dsimp only
        rw [hn]
        exact geom_cons d n

theorem runModelLoop_single_delays (env : Env) (behavior : Behavior)
    (prompt : JSValue) (m : String) :
    (runModelLoop env behavior prompt [m]).delays =
      (fetchWithRetry (behavior m) 7).delays := by
  simp only [runModelLoop]
  cases ht : (fetchWithRetry (behavior m) 7).result with
  | thrown => simp [closeLog]
  | undefinedResult => simp [closeLog]
  | response r =>
    by_cases hok : statusOk r.status
    · cases hj : r.bodyJson <;> simp [hok, hj, closeLog]
    · by_cases hm : m = FALLBACK_MODEL
      · simp [hok, hm, closeLog]
      · simp [hok, hm, closeLog, runModelLoop, emptyLog]

theorem runModelLoop_noncontinue_delays (env : Env) (behavior : Behavior)
    (prompt : JSValue) (m : String) (rest : List String)
    (h : ∀ r, (fetchWithRetry (behavior m) 7).result = .response r →
      statusOk r.status = true) :
    (runModelLoop env behavior prompt (m :: rest)).delays =
      (fetchWithRetry (behavior m) 7).delays := by
  simp only [runModelLoop]
  cases ht : (fetchWithRetry (behavior m) 7).result with
  | thrown => simp [closeLog]
  | undefinedResult => simp [closeLog]
  | response r =>
    have hok := h r ht
    cases hj : r.bodyJson <;> simp [hok, hj, closeLog]

/-- Counterexample to C8 as stated: when both models exhaust their retries,
the dispatch-wide delay sequence is not multiplicative throughout — after
growing past 600 ms (the 6th delay is 600·1.8⁵), the 7th recorded delay of
the same dispatch is the initial 600 ms again, because the fallback model's
retry loop reinitializes the backoff. -/
theorem claim_C8_counterexample :
    (¬ ∀ i, i < resetDelays.length - 1 →
        resetDelays.getD (i + 1) 0 = resetDelays.getD i 0 * growthFactor) ∧
    resetDelays.getD 6 0 = 600 ∧ 600 < resetDelays.getD 5 0 := by
  have h5 : resetDelays.getD 5 0 =
      600 * growthFactor * growthFactor * growthFactor * growthFactor *
        growthFactor := rfl
  have h6 : resetDelays.getD 6 0 = 600 := rfl
  have hlen : resetDelays.length = 12 := rfl
  refine ⟨?_, h6, ?_⟩
  · intro h
    have hj := h 5 (by rw [hlen]; norm_num)
    rw [h5, h6] at hj
    norm_num [growthFactor] at hj
  · rw [h5]
    norm_num [growthFactor]

/-- C8 (corrected claim as amended): within each bounded-retry send the
backoff delay follows the geometric schedule from 600 ms — multiplied by 1.8
before every retry, never reset during that send; the delays recorded across
a whole dispatch are those of the primary model's send followed, when the
fallback is attempted, by those of the fallback's send, whose schedule
restarts at the initial 600 ms. -/
theorem claim_C8_amended :
    (∀ (upstream : Nat → FetchOutcome) (retries : Nat), ∃ n,
      (fetchWithRetry upstream retries).delays =
        (List.range n).map fun j => (600 : ℚ) * growthFactor ^ j) ∧
    (∀ (env : Env) (behavior : Behavior) (prompt : JSValue),
      (runModelLoop env behavior prompt
          [PRIMARY_MODEL, FALLBACK_MODEL]).delays =
        (fetchWithRetry (behavior PRIMARY_MODEL) 7).delays ∨
      (runModelLoop env behavior prompt
          [PRIMARY_MODEL, FALLBACK_MODEL]).delays =
        (fetchWithRetry (behavior PRIMARY_MODEL) 7).delays ++
          (fetchWithRetry (behavior FALLBACK_MODEL) 7).delays) := by
  constructor
  · intro upstream retries
    exact fetchWithRetryGo_delays_geom upstream retries 1 600
  · intro env behavior prompt
    by_cases hcase : ∃ r,
        (fetchWithRetry (behavior PRIMARY_MODEL) 7).result = .response r ∧
        statusOk r.status = false
    · obtain ⟨r, hr, hok⟩ := hcase
      right
      rw [(runModelLoop_continue env behavior prompt PRIMARY_MODEL
        [FALLBACK_MODEL] r hr hok (by decide)).2.2]
      rw [runModelLoop_single_delays]
    · left
      apply runModelLoop_noncontinue_delays
      intro r hr
      by_contra hok
      exact hcase ⟨r, hr, by simpa using hok⟩
